import Mathlib

/-!
Shallow embedding of the prompt-construction and conversation-state engine of
`biographer.py` (a single-file Streamlit application).  The mutable
`st.session_state` namespace is modelled as an explicit `AppState` record that
is threaded through every operation; Python dicts are modelled as ordered
association lists (insertion order, first occurrence wins on lookup, in-place
replacement on update, matching CPython dict semantics); file I/O and the LLM
call are modelled as explicit oracle parameters.  All definitions are
translated from the source; line numbers refer to `src/biographer.py`.
-/

namespace Biographer

/-! ### Association-list model of Python dicts -/

/-- `m[k]` lookup (`dict.get`): first binding of the key, if any. -/
def lookupA {κ α : Type} [DecidableEq κ] : List (κ × α) → κ → Option α
  | [], _ => none
  | (k0, v) :: rest, k => if k0 = k then some v else lookupA rest k

/-- `m[k] = v` on a Python dict: replace the existing binding in place,
otherwise append at the end (CPython insertion-order semantics). -/
def upsertA {κ α : Type} [DecidableEq κ] : List (κ × α) → κ → α → List (κ × α)
  | [], k, v => [(k, v)]
  | (k0, v0) :: rest, k, v =>
    if k0 = k then (k, v) :: rest else (k0, v0) :: upsertA rest k v

/-- Number of bindings of a key (1 for a genuine dict). -/
def countKeyA {κ α : Type} [DecidableEq κ] (m : List (κ × α)) (k : κ) : Nat :=
  (m.filter (fun p => p.1 = k)).length

theorem lookupA_upsertA_self {κ α : Type} [DecidableEq κ]
    (m : List (κ × α)) (k : κ) (v : α) : lookupA (upsertA m k v) k = some v := by
  induction m with
  | nil => simp [upsertA, lookupA]
  | cons p rest ih =>
    by_cases h : p.1 = k
    · simp [upsertA, lookupA, h]
    · simp [upsertA, lookupA, h, ih]

theorem lookupA_upsertA_ne {κ α : Type} [DecidableEq κ]
    (m : List (κ × α)) (k k' : κ) (v : α) (h : k ≠ k') :
    lookupA (upsertA m k v) k' = lookupA m k' := by
  induction m with
  | nil => simp [upsertA, lookupA, h]
  | cons p rest ih =>
    by_cases hp : p.1 = k
    · simp [upsertA, lookupA, hp, h]
    · simp [upsertA, lookupA, hp, ih]

theorem length_upsertA_of_mem {κ α : Type} [DecidableEq κ]
    (m : List (κ × α)) (k : κ) (v : α) (h : (lookupA m k).isSome) :
    (upsertA m k v).length = m.length := by
  induction m with
  | nil => simp [lookupA] at h
  | cons p rest ih =>
    by_cases hp : p.1 = k
    · simp [upsertA, hp]
    · simp [lookupA, hp] at h
      simp [upsertA, hp, ih h]

theorem countKeyA_upsertA_of_mem {κ α : Type} [DecidableEq κ]
    (m : List (κ × α)) (k : κ) (v : α) (h : (lookupA m k).isSome) :
    countKeyA (upsertA m k v) k = countKeyA m k := by
  induction m with
  | nil => simp [lookupA] at h
  | cons p rest ih =>
    by_cases hp : p.1 = k
    · simp [upsertA, countKeyA, hp]
    · simp [lookupA, hp] at h
      simp [upsertA, countKeyA, hp, List.filter] at ih ⊢
      simpa [countKeyA, hp] using ih h

/-! ### Data model (SECTION 5 and session-state initialisation) -/

/-- One saved answer: `{"answer": ..., "timestamp": ...}` (lines 1532-1535). -/
structure Answer where
  answer : String
  timestamp : String
  deriving DecidableEq, Repr

/-- Per-session progress record created at bootstrap (lines 1467-1477). -/
structure SessionProgress where
  title : String
  questions : List (String × Answer)
  summary : String
  completed : Bool
  word_target : Nat
  deriving DecidableEq, Repr

/-- Static session catalog entry (`SESSIONS`, lines 649-695).  The `guidance`
field is presentation-only text never read by any embedded operation and is
omitted. -/
structure Session where
  id : Nat
  title : String
  questions : List String
  word_target : Nat
  deriving DecidableEq, Repr

/-- The static `SESSIONS` catalog (lines 649-695). -/
def SESSIONS : List Session := [
  { id := 1, title := "Childhood",
    questions := [
      "What is your earliest memory?",
      "Can you describe your family home growing up?",
      "Who were the most influential people in your early years?",
      "What was school like for you?",
      "Were there any favourite games or hobbies?",
      "Is there a moment from childhood that shaped who you are?",
      "If you could give your younger self some advice, what would it be?"],
    word_target := 800 },
  { id := 2, title := "Family & Relationships",
    questions := [
      "How would you describe your relationship with your parents?",
      "Are there any family traditions you remember fondly?",
      "What was your relationship like with siblings or close relatives?",
      "Can you share a story about a family celebration or challenge?",
      "How did your family shape your values?"],
    word_target := 700 },
  { id := 3, title := "Education & Growing Up",
    questions := [
      "What were your favourite subjects at school?",
      "Did you have any memorable teachers or mentors?",
      "How did you feel about exams and studying?",
      "Were there any big turning points in your education?",
      "Did you pursue further education or training?",
      "What advice would you give about learning?"],
    word_target := 600 }]

/-- A chat message `{"role": ..., "content": ...}`. -/
structure Message where
  role : String
  content : String
  deriving DecidableEq, Repr

/-- Uploaded-photo metadata entry as consumed by the prompt code
(`original_filename`, optional truthy `description`). -/
structure ImageMeta where
  original_filename : String
  description : Option String
  deriving DecidableEq, Repr

/-- The `stats` dict of an account (lines 1515-1520); `none` fields model
missing dict keys read through `.get(..., default)`. -/
structure StatsRec where
  total_words : Option Nat
  total_sessions : Option Nat
  last_active : Option String
  deriving DecidableEq, Repr

/-- Account record as read by the core: `profile.birthdate` and `stats`
(`none` stats models a record with no `"stats"` key yet). -/
structure Account where
  email : String
  profile_birthdate : Option String
  stats : Option StatsRec
  deriving DecidableEq, Repr

/-- The slice of `st.session_state` read and written by the embedded
operations (initialised at lines 1393-1477).  ISO dates of the streak system
are modelled as day numbers. -/
structure AppState where
  user_id : String
  logged_in : Bool
  user_account : Option Account
  current_session : Nat
  current_question : Nat
  current_question_override : Option String
  image_prompt_mode : Bool
  selected_images_for_prompt : List ImageMeta
  ghostwriter_mode : Bool
  spellcheck_enabled : Bool
  editing : Option (Nat × String × Nat)
  edit_text : String
  responses : List (Nat × SessionProgress)
  session_conversations : List (Nat × List (String × List Message))
  streak_days : Nat
  last_active : Nat
  total_writing_days : Nat
  prompt_index : Nat
  deriving DecidableEq, Repr

/-! ### Word counting (`len(re.findall(r'\w+', text))`)

Every word count in the source is the same expression
`len(re.findall(r'\w+', text))` (lines 1156, 1514, 1550, 2646, 2673): the
number of maximal runs of `\w` characters.  ASCII `\w` is alphanumerics plus
underscore. -/

def isWordChar (c : Char) : Bool := c.isAlphanum || c = '_'

/-- Count maximal `\w`-runs in a character list; the flag records whether the
previous character was a word character. -/
def countRuns : List Char → Bool → Nat
  | [], _ => 0
  | c :: rest, inw =>
    if isWordChar c then (if inw then 0 else 1) + countRuns rest true
    else countRuns rest false

/-- `len(re.findall(r'\w+', text))`: the single word-count rule of the source. -/
def wordCount (s : String) : Nat := countRuns s.data false

example : wordCount "I remember the garden." = 4 := by decide
example : wordCount "" = 0 := by decide
example : wordCount "hello there" = 2 := by decide

/-! ### Historical events (SECTION 7, lines 760-813)

`load_historical_events` parses the CSV into a decade-keyed dict; that store
is an input here (`events_by_decade`).  `datetime.now().year` is the explicit
`current_year` parameter. -/

/-- One CSV event as stored per decade by `load_historical_events`
(lines 773-779): the `year_range` field repeats the decade key. -/
structure RawEvent where
  event : String
  category : String
  region : String
  description : String
  year_range : String
  deriving DecidableEq, Repr

/-- An event enriched with `approx_age` (line 804-805). -/
structure AgedEvent where
  event : String
  category : String
  region : String
  description : String
  year_range : String
  approx_age : Int
  deriving DecidableEq, Repr

/-- `event.copy()` plus `event_with_age['approx_age'] = age_at_event`. -/
def withAge (e : RawEvent) (age : Int) : AgedEvent :=
  { event := e.event, category := e.category, region := e.region,
    description := e.description, year_range := e.year_range, approx_age := age }

/-- Python `range(start, stop, 10)` over integers. -/
def range10 (start stop : Int) : List Int :=
  (List.range ((stop - start + 9).fdiv 10).toNat).map (fun k => start + 10 * k)

/-- `get_events_for_birth_year` (lines 787-813).  Python `//` is floor
division (`Int.fdiv`); `int(decade_key.replace('s','')) + 5` recovers
`decade_year + 5`; events with negative `age_at_event` are skipped
(line 803); the result is sorted by the `year_range` string (line 808,
`list.sort` is a stable merge sort) and capped at 20. -/
def get_events_for_birth_year (events_by_decade : List (String × List RawEvent))
    (birth_year current_year : Int) : List AgedEvent :=
  let start_decade_year := (birth_year.fdiv 10) * 10
  let relevant_events :=
    (range10 start_decade_year (current_year + 10)).flatMap (fun decade_year =>
      match lookupA events_by_decade (toString decade_year ++ "s") with
      | none => []
      | some evs => evs.filterMap (fun e =>
          let age_at_event := (decade_year + 5) - birth_year
          if 0 ≤ age_at_event then some (withAge e age_at_event) else none))
  (relevant_events.mergeSort (fun a b => a.year_range ≤ b.year_range)).take 20

/-! ### Prompt building (SECTION 15, lines 1613-1731, and
`get_images_for_prompt_simple`, lines 239-264)

Non-ASCII characters below reproduce the source bytes exactly (the file
contains mojibake sequences such as `"üì∏"` where a
camera emoji was intended). -/

/-- One rendered event line of the historical-context block
(lines 1634-1638): `- <event> (<year_range>)[ [UK]][ (Age <age>)]`.  The
`'approx_age' in event` test of line 1637 is always true, since every event
reaching this point was built by `withAge`. -/
def renderEventLine (e : AgedEvent) : String :=
  let t := "- " ++ e.event ++ " (" ++ e.year_range ++ ")"
  let t := if e.region = "UK" then t ++ " [UK]" else t
  if 0 ≤ e.approx_age then t ++ " (Age " ++ toString e.approx_age ++ ")" else t

/-- The historical-context block rendered from a (already filtered) event
list for a given birth year (lines 1631-1647); empty when no events. -/
def historicalContextBlock (birth_year : Int) (events : List AgedEvent) : String :=
  if events = [] then ""
  else
    "\nHISTORICAL CONTEXT (Born " ++ toString birth_year ++ "):\n" ++
    "During their lifetime, these major events occurred:\n" ++
    String.intercalate "\n" ((events.take 5).map renderEventLine) ++
    "\n\nConsider how these historical moments might have shaped their experiences and perspectives.\n"

/-- Birth-year extraction of lines 1626-1627:
`int(birthdate.split(', ')[-1])`; `none` models the caught exception. -/
def parseBirthYear (birthdate : String) : Option Int :=
  (birthdate.splitOn ", ").getLast?.bind String.toInt?

/-- `historical_context` of `get_system_prompt` (lines 1622-1649): empty
unless an account with a truthy birthdate is attached and the year parses and
events exist. -/
def historicalContext (acc : Option Account)
    (events_by_decade : List (String × List RawEvent)) (current_year : Int) : String :=
  match acc with
  | none => ""
  | some a =>
    match a.profile_birthdate with
    | none => ""
    | some bd =>
      if bd = "" then ""  -- empty string is falsy in the line-1624 guard
      else
        match parseBirthYear bd with
        | none => ""      -- int(...) raised; caught at line 1648
        | some birth_year =>
          historicalContextBlock birth_year
            (get_events_for_birth_year events_by_decade birth_year current_year)

/-- `get_images_for_prompt_simple` (lines 239-264), over the image list read
from the metadata store; a missing or empty `description` is falsy and
omitted. -/
def get_images_for_prompt_simple (images : List ImageMeta) : String :=
  if images = [] then ""
  else
    "\n\n\uF8FF\u00FC\u00EC\u220F **PHOTOS UPLOADED FOR THIS MEMORY:**\n" ++
    String.join ((images.take 5).map (fun img =>
      "- Photo: " ++ img.original_filename ++
      (match img.description with
       | some d => if d = "" then "" else " - " ++ d
       | none => "") ++ "\n")) ++
    "\n**Use these photos to ask specific questions about:\n" ++
    "1. Who is in the photo?\n" ++
    "2. Where was it taken?\n" ++
    "3. When was it taken?\n" ++
    "4. What\x27s happening in the photo?\n" ++
    "5. What emotions does it bring up?\n" ++
    "6. What happened before/after this moment?**\n"

/-- The fixed five-question photo bank of lines 1673-1679. -/
def photo_prompts : List String := [
  "Who is in this photo?",
  "Where and when was this taken?",
  "What was happening just before/after this moment?",
  "What emotions does this photo bring up?",
  "Why was this photo taken/saved?"]

/-- The photo-story section of lines 1661-1687.  `sampled idx` is the
outcome of `random.sample(photo_prompts, min(3, len(photo_prompts)))` for the
photo at position `idx`: the builder draws it internally, so it enters the
embedding as an oracle input. -/
def imagePromptSection (image_prompt_mode : Bool) (selected : List ImageMeta)
    (sampled : Nat → List String) : String :=
  if image_prompt_mode ∧ selected ≠ [] then
    "\n\n\uF8FF\u00FC\u00EC\u220F **PHOTO STORY MODE:**\n" ++
    "The user has selected specific photos to write about. " ++
    "Ask questions about these specific photos:\n\n" ++
    String.join (((selected.take 3).enum).map (fun p =>
      let idx := p.1
      let img := p.2
      "**Photo " ++ toString (idx + 1) ++ ": " ++ img.original_filename ++ "**\n" ++
      (match img.description with
       | some d => if d = "" then "" else "Description: " ++ d ++ "\n"
       | none => "") ++
      String.join ((sampled idx).map (fun q => "\u201A\u00C4\u00A2 " ++ q ++ "\n")) ++
      "\n"))
  else ""

/-- External data consumed by one `get_system_prompt` call: the CSV store and
wall-clock year (via `get_events_for_birth_year`), the per-user image
metadata store (`get_session_images`), and the internal `random.sample`
outcomes. -/
structure PromptDeps where
  events_by_decade : List (String × List RawEvent)
  current_year : Int
  session_images : String → Nat → List ImageMeta
  sampled : Nat → List String

/-- `get_system_prompt` (lines 1613-1731).  `none` models the uncaught
`IndexError` when the navigation indices are out of range (lines 1614,
1620). -/
def get_system_prompt (s : AppState) (d : PromptDeps) : Option String := do
  let current_session ← SESSIONS.get? s.current_session
  let current_question ←
    match s.current_question_override with
    | some o => some o
    | none => current_session.questions.get? s.current_question
  let historical_context := historicalContext s.user_account d.events_by_decade d.current_year
  let image_context :=
    if s.logged_in ∧ s.user_id ≠ "" then
      let images := d.session_images s.user_id current_session.id
      if images = [] then "" else get_images_for_prompt_simple images
    else ""
  let image_prompt_section :=
    imagePromptSection s.image_prompt_mode s.selected_images_for_prompt d.sampled
  if s.ghostwriter_mode then
    pure ("ROLE: You are a senior literary biographer with multiple award-winning books to your name.\n\n" ++
      "CURRENT SESSION: Session " ++ toString current_session.id ++ ": " ++ current_session.title ++ "\n" ++
      "CURRENT TOPIC: \"" ++ current_question ++ "\"\n" ++
      historical_context ++ image_context ++ image_prompt_section ++ "\n\n" ++
      "YOUR APPROACH:\n" ++
      "1. Listen like an archivist\n" ++
      "2. Think in scenes, sensory details, and emotional truth\n" ++
      "3. Connect personal stories to historical context when relevant\n" ++
      "4. Find the story that needs to be told\n" ++
      "5. When photos are mentioned, ask SPECIFIC questions about them\n\n" ++
      "PHOTO QUESTIONS TO ASK:\n" ++
      "\u201A\u00C4\u00A2 \"Who are the people in this photo?\"\n" ++
      "\u201A\u00C4\u00A2 \"What was happening that day?\"\n" ++
      "\u201A\u00C4\u00A2 \"Where was this taken and why were you there?\"\n" ++
      "\u201A\u00C4\u00A2 \"What do you remember feeling when this was taken?\"\n" ++
      "\u201A\u00C4\u00A2 \"What happened right after this photo was taken?\"\n\n" ++
      "Tone: Literary but not pretentious. Serious but not solemn.\n\n" ++
      "IMPORTANT: When photos are mentioned, ask specific, detailed questions about them.")
  else
    pure ("You are a warm, professional biographer helping document a life story.\n\n" ++
      "CURRENT SESSION: Session " ++ toString current_session.id ++ ": " ++ current_session.title ++ "\n" ++
      "CURRENT TOPIC: \"" ++ current_question ++ "\"\n" ++
      historical_context ++ image_context ++ image_prompt_section ++ "\n\n" ++
      "Please:\n" ++
      "1. Listen actively\n" ++
      "2. Acknowledge warmly\n" ++
      "3. Ask ONE natural follow-up question that connects to historical context or photos\n" ++
      "4. When photos are mentioned, ask about the people, place, and emotions\n\n" ++
      "PHOTO QUESTIONS:\n" ++
      "\u201A\u00C4\u00A2 \"Tell me about the people in this photo\"\n" ++
      "\u201A\u00C4\u00A2 \"What\x27s the story behind this moment?\"\n" ++
      "\u201A\u00C4\u00A2 \"How do you feel when you look at this photo?\"\n\n" ++
      "Tone: Kind, curious, professional")

/-! ### Streak update and response persistence (lines 1099-1124, 1501-1542)

`update_streak` compares ISO date strings; dates are modelled as day numbers
(`today` is the explicit clock parameter).  File writes are recorded in a
`SaveEffects` value so that "no persistence attempted" is expressible;
`ioOk` is the outcome of the `save_user_data` file write. -/

/-- Record of the file writes a call performed. -/
structure SaveEffects where
  accountSaved : Option Account
  userDataSaved : Option (String × List (Nat × SessionProgress))
  deriving DecidableEq, Repr

/-- No file write performed. -/
def noEffects : SaveEffects := { accountSaved := none, userDataSaved := none }

/-- `update_streak` (lines 1099-1124); the date-parse `except` branch cannot
fire in the day-number model. -/
def update_streak (s : AppState) (today : Nat) : AppState :=
  if s.last_active ≠ today then
    let days_diff : Int := (today : Int) - (s.last_active : Int)
    let streak :=
      if days_diff = 1 then s.streak_days + 1
      else if 1 < days_diff then 1
      else s.streak_days
    { s with streak_days := streak,
             total_writing_days := s.total_writing_days + 1,
             last_active := today }
  else s

/-- Default for `.get` on a missing `"stats"` dict (line 1515-1516 creates
`{}`, every later read uses `.get(..., default)`). -/
def emptyStats : StatsRec := { total_words := none, total_sessions := none, last_active := none }

/-- `SESSIONS[session_id-1]` with Python index semantics: `session_id = 0`
yields index `-1`, the last catalog entry. -/
def sessionAt (session_id : Nat) : Option Session :=
  match session_id with
  | 0 => SESSIONS.getLast?
  | n + 1 => SESSIONS.get? n

/-- `save_response` (lines 1501-1542).  Returns `none` for the uncaught
`KeyError`/`IndexError` paths (line 1519 with an account attached but no
responses entry; line 1525 with an unknown session id); otherwise
`some (result, state, effects)` where `result` is the returned boolean. -/
def save_response (s : AppState) (session_id : Nat) (question answer : String)
    (today : Nat) (now : String) (ioOk : Bool) : Option (Bool × AppState × SaveEffects) :=
  let user_id := s.user_id
  if user_id = "" then some (false, s, noEffects)   -- lines 1505-1507
  else
    let s := update_streak s today                  -- line 1511
    -- lines 1513-1521: aggregate stats, only with an account attached
    let statsStep : Option (AppState × SaveEffects) :=
      match s.user_account with
      | none => some (s, noEffects)
      | some acc =>
        match lookupA s.responses session_id with
        | none => none                              -- KeyError at line 1519
        | some sp =>
          let word_count := wordCount answer
          let st0 := acc.stats.getD emptyStats
          let st1 : StatsRec :=
            { total_words := some (st0.total_words.getD 0 + word_count),
              total_sessions := some sp.questions.length,
              last_active := some now }
          let acc1 := { acc with stats := some st1 }
          some ({ s with user_account := some acc1 },
                { noEffects with accountSaved := some acc1 })
    match statsStep with
    | none => none
    | some (s, eff) =>
      -- lines 1523-1530: create the session entry if missing
      let ensured : Option (List (Nat × SessionProgress) × SessionProgress) :=
        match lookupA s.responses session_id with
        | some sp => some (s.responses, sp)
        | none =>
          match sessionAt session_id with
          | none => none                            -- IndexError at line 1525
          | some sess =>
            let fresh : SessionProgress :=
              { title := sess.title, questions := [], summary := "",
                completed := false, word_target := sess.word_target }
            some (upsertA s.responses session_id fresh, fresh)
      match ensured with
      | none => none
      | some (resps, sp) =>
        -- lines 1532-1535: upsert the answer
        let sp1 := { sp with questions := upsertA sp.questions question ⟨answer, now⟩ }
        let s1 := { s with responses := upsertA resps session_id sp1 }
        -- lines 1537-1542: save_user_data(user_id, responses)
        some (ioOk, s1, { eff with userDataSaved := some (user_id, s1.responses) })

/-! ### Progress arithmetic (lines 1544-1586)

Python float arithmetic is modelled with exact rationals; nothing proved here
depends on rounding. -/

/-- `calculate_author_word_count` (lines 1544-1552): a falsy (empty) answer
is skipped by the line-1549 guard. -/
def calculate_author_word_count (s : AppState) (session_id : Nat) : Nat :=
  match lookupA s.responses session_id with
  | none => 0
  | some sp =>
    (sp.questions.map (fun p => if p.2.answer ≠ "" then wordCount p.2.answer else 0)).sum

/-- Return value of `get_progress_info` (lines 1578-1586). -/
structure ProgressInfo where
  current_count : Nat
  target : Nat
  progress_percent : ℚ
  emoji : String
  color : String
  remaining_words : Nat
  status_text : String
  deriving DecidableEq, Repr

/-- `get_progress_info` (lines 1554-1586); `none` models the `KeyError` when
the session id is absent (line 1556). -/
def get_progress_info (s : AppState) (session_id : Nat) : Option ProgressInfo :=
  let current_count := calculate_author_word_count s session_id
  match lookupA s.responses session_id with
  | none => none
  | some sp =>
    let target := sp.word_target
    let pec : ℚ × String × String :=
      if target = 0 then (100, "\uF8FF\u00FC\u00FC\u00A2", "#2ecc71")
      else
        let progress_percent : ℚ := ((current_count : ℚ) / (target : ℚ)) * 100
        if 100 ≤ progress_percent then (progress_percent, "\uF8FF\u00FC\u00FC\u00A2", "#2ecc71")
        else if 70 ≤ progress_percent then (progress_percent, "\uF8FF\u00FC\u00FC\u00B0", "#f39c12")
        else (progress_percent, "\uF8FF\u00FC\u00EE\u00A5", "#e74c3c")
    let remaining_words := target - current_count   -- max(0, ...) is Nat truncation
    some { current_count := current_count, target := target,
           progress_percent := pec.1, emoji := pec.2.1, color := pec.2.2,
           remaining_words := remaining_words,
           status_text := if 0 < remaining_words
             then toString remaining_words ++ " words remaining"
             else "Target achieved!" }

/-! ### Conversation store (SECTION 23, lines 2577-2747) -/

/-- The transcript currently stored under `(session_id, question)`:
`session_conversations[sid].get(q, [])`. -/
def conversationAt (s : AppState) (session_id : Nat) (question : String) : List Message :=
  (lookupA ((lookupA s.session_conversations session_id).getD []) question).getD []

/-- Store a transcript under `(session_id, question)`
(`session_conversations[sid][q] = conversation`). -/
def storeConversation (s : AppState) (session_id : Nat) (question : String)
    (conversation : List Message) : AppState :=
  { s with session_conversations := (upsertA s.session_conversations session_id
      (upsertA ((lookupA s.session_conversations session_id).getD []) question conversation)) }

/-- The photo-mode variant of the opening assistant message (lines 2617-2618). -/
def photoModeWelcome (selectedCount : Nat) : String :=
  "\uF8FF\u00FC\u00EC\u220F Photo Story Mode: You\x27ve selected " ++ toString selectedCount ++
  " photo(s) to write about. I\x27ll ask you questions about each photo to help tell their stories."

/-- The transcript-lookup-or-synthesis block of lines 2577-2623: ensures the
session key exists (2577-2578), reads the transcript (2580), and when it is
empty synthesizes one — a 2-message transcript from the saved answer
(2586-2592) or a 1-message opened transcript (2594-2623).  `none` models the
`KeyError` of line 2584 when the session id is missing from `responses`. -/
def getOrCreateConversation (s : AppState) (session_id : Nat) (question : String) :
    Option (List Message × AppState) :=
  let sc := if (lookupA s.session_conversations session_id).isSome
            then s.session_conversations
            else upsertA s.session_conversations session_id []
  let s := { s with session_conversations := sc }
  let conversation := (lookupA ((lookupA sc session_id).getD []) question).getD []
  if conversation ≠ [] then some (conversation, s)
  else
    match lookupA s.responses session_id with
    | none => none                                   -- KeyError at line 2584
    | some sp =>
      match lookupA sp.questions question with
      | some saved_response =>
        -- lines 2586-2592
        let conversation : List Message :=
          [{ role := "assistant", content := "Let\x27s explore this topic in detail: " ++ question },
           { role := "user", content := saved_response.answer }]
        some (conversation, storeConversation s session_id question conversation)
      | none =>
        -- lines 2594-2623
        let conv_text := "Let\x27s explore this topic in detail: " ++ question ++ "\n\n" ++
          (if s.image_prompt_mode
           then photoModeWelcome s.selected_images_for_prompt.length
           else "Take your time with this\u201A\u00C4\u00EEgood biographies are built from thoughtful reflection.")
        let conversation : List Message := [{ role := "assistant", content := conv_text }]
        some (conversation, storeConversation s session_id question conversation)

/-- The edit-save handler (lines 2651-2664): `new_text` is the text after the
optional auto-correct of line 2654; `conversation[i]["content"] = new_text`
mutates one message in place, the transcript is stored back, `save_response`
persists the new text, and `editing` is reset.  `none` models the uncaught
`IndexError` when `i` is not a valid transcript index, and the error paths of
`save_response`. -/
def editSaveTurn (s : AppState) (session_id : Nat) (question : String) (i : Nat)
    (new_text : String) (today : Nat) (now : String) (ioOk : Bool) :
    Option (Bool × AppState × SaveEffects) :=
  let conversation := conversationAt s session_id question
  if i < conversation.length then
    let conversation' := conversation.set i
      { (conversation.getD i { role := "", content := "" }) with content := new_text }
    let s1 := storeConversation s session_id question conversation'
    (save_response s1 session_id question new_text today now ioOk).map
      (fun r => (r.1, { r.2.1 with editing := none }, r.2.2))
  else none

/-- The fixed fallback assistant message of line 2737. -/
def llmFallbackMessage : String := "Thank you for sharing that. Your response has been saved."

/-- The chat-input handler (lines 2692-2747), from the point where
`user_input` has passed the optional auto-correct of line 2695.  `llm` is the
outcome of the `client.chat.completions.create` call: `.ok text` a reply,
`.error ()` any raised exception, which line 2736 catches, substituting
`llmFallbackMessage`.  Either way the turn is appended (2698, 2734/2739),
the transcript stored (2742) and `save_response` invoked (2745). -/
def chatTurn (s : AppState) (session_id : Nat) (question : String) (user_input : String)
    (llm : Except Unit String) (today : Nat) (now : String) (ioOk : Bool) :
    Option (Bool × AppState × SaveEffects) :=
  let conversation := conversationAt s session_id question
  let conversation := conversation ++ [{ role := "user", content := user_input }]
  let ai_message : String :=
    match llm with
    | .ok ai_response =>
      if s.image_prompt_mode
      then ai_response ++ "\n\n\uF8FF\u00FC\u00EC\u220F **Photo Note:** Keep describing your photos! Who, what, where, when, and why?"
      else ai_response
    | .error _ => llmFallbackMessage
  let conversation := conversation ++ [{ role := "assistant", content := ai_message }]
  let s1 := storeConversation s session_id question conversation
  save_response s1 session_id question user_input today now ioOk

/-! ### Sidebar navigation (lines 2011-2075)

Each click handler is a state transition; a `disabled=` button cannot fire,
so a click on a boundary-disabled button is the identity.  All handlers run
after line 2027 has evaluated `SESSIONS[st.session_state.current_session]`,
whose potential `IndexError` is the `none` case. -/

/-- Session-select button `select_session_{i}` (lines 2011-2019); one button
exists per catalog index `i`. -/
def selectSessionClick (s : AppState) (i : Nat) : AppState :=
  { s with current_session := i, current_question := 0, editing := none,
           current_question_override := none, image_prompt_mode := false }

/-- Questions of the current session, if the index is valid. -/
def currentQuestions (s : AppState) : Option (List String) :=
  (SESSIONS.get? s.current_session).map (·.questions)

/-- `Previous Topic` (lines 2032-2037): disabled at index 0. -/
def prevTopicClick (s : AppState) : Option AppState :=
  match currentQuestions s with
  | none => none
  | some _ =>
    if s.current_question = 0 then some s           -- button disabled
    else some { s with current_question := s.current_question - 1, editing := none,
                       current_question_override := none, image_prompt_mode := false }

/-- `Next Topic` (lines 2040-2045): disabled at the last index. -/
def nextTopicClick (s : AppState) : Option AppState :=
  match currentQuestions s with
  | none => none
  | some qs =>
    if qs.length - 1 ≤ s.current_question then some s   -- button disabled
    else some { s with current_question := min (qs.length - 1) (s.current_question + 1),
                       editing := none, current_question_override := none,
                       image_prompt_mode := false }

/-- `Previous Session` (lines 2051-2057): disabled at session index 0. -/
def prevSessionClick (s : AppState) : Option AppState :=
  match currentQuestions s with
  | none => none
  | some _ =>
    if s.current_session = 0 then some s
    else some { s with current_session := s.current_session - 1, current_question := 0,
                       editing := none, current_question_override := none,
                       image_prompt_mode := false }

/-- `Next Session` (lines 2059-2065): disabled at the last session index. -/
def nextSessionClick (s : AppState) : Option AppState :=
  match currentQuestions s with
  | none => none
  | some _ =>
    if SESSIONS.length - 1 ≤ s.current_session then some s
    else some { s with current_session := min (SESSIONS.length - 1) (s.current_session + 1),
                       current_question := 0, editing := none,
                       current_question_override := none, image_prompt_mode := false }

/-- Jump-to-session selectbox (lines 2067-2075): `i` is the index of the
chosen option (always a valid catalog index); the body runs only when the
choice differs from the current session. -/
def jumpToSession (s : AppState) (i : Nat) : AppState :=
  if i = s.current_session then s
  else { s with current_session := i, current_question := 0, editing := none,
                current_question_override := none, image_prompt_mode := false }

/-- Number of topics of the current session (0 when the session index is
out of range). -/
def numTopics (s : AppState) : Nat :=
  ((SESSIONS.get? s.current_session).map (·.questions.length)).getD 0

/-- The navigation-state invariant of the spec: both indices in bounds. -/
def NavInv (s : AppState) : Prop :=
  s.current_session < SESSIONS.length ∧ s.current_question < numTopics s

instance (s : AppState) : Decidable (NavInv s) := by
  unfold NavInv; infer_instance

/-! ### User-data loading (SECTION 9, lines 1056-1074) -/

/-- A decoded JSON document, as `json.load` can produce it: a `load_user_data`
file may hold an arbitrary JSON value, not only an object.  Floats carry no
weight here and numbers are modelled as integers. -/
inductive JsonVal where
  | str (s : String)
  | arr (elems : List JsonVal)
  | obj (fields : List (String × JsonVal))
  | num (n : Int)
  | bool (b : Bool)
  | null

/-- `needle` is a prefix of `hay` (character lists). -/
def startsWithL : List Char → List Char → Bool
  | [], _ => true
  | _ :: _, [] => false
  | c :: cs, d :: ds => c = d && startsWithL cs ds

/-- `needle in hay` for Python strings: occurrence as a contiguous
substring. -/
def hasSubstr (needle : List Char) : List Char → Bool
  | [] => needle.isEmpty
  | c :: rest => startsWithL needle (c :: rest) || hasSubstr needle rest

/-- The Python expression `"responses" in data` of line 1069, whose meaning
depends on the runtime type of `data`: key membership for a dict, substring
containment for a string, element equality for a list, and a `TypeError`
(modelled as `none`, caught by the line-1072 handler) for any
non-container. -/
def responsesInTest : JsonVal → Option Bool
  | .obj fields => some (fields.any (fun p => p.1 = "responses"))
  | .str s => some (hasSubstr "responses".data s.data)
  | .arr elems => some (elems.any (fun e =>
      match e with
      | .str s => s = "responses"
      | _ => false))
  | .num _ => none
  | .bool _ => none
  | .null => none

/-- What the filesystem holds at a path: no file, a file that fails to open
or parse as JSON, or a decoded JSON document. -/
inductive FileState where
  | missing
  | unreadable
  | parsed (doc : JsonVal)

/-- `get_user_filename` (lines 1056-1059); `md5hex` is the untranslated MD5
hex digest. -/
def get_user_filename (md5hex : String → String) (user_id : String) : String :=
  "user_data_" ++ (md5hex user_id).take 8 ++ ".json"

/-- The fresh record `{"responses": {}, "last_loaded": now}` of
lines 1071/1074. -/
def freshRecord (now : String) : JsonVal :=
  .obj [("responses", .obj []), ("last_loaded", .str now)]

/-- `load_user_data` (lines 1061-1074): if the file exists, parses and passes
the `"responses" in data` test, the decoded document is returned verbatim
(whatever its type); a missing file, a failed open/parse, a failed test, or a
`TypeError` raised by the test (caught at line 1072) yield the fresh
record. -/
def load_user_data (md5hex : String → String) (fs : String → FileState)
    (user_id : String) (now : String) : JsonVal :=
  match fs (get_user_filename md5hex user_id) with
  | .missing => freshRecord now
  | .unreadable => freshRecord now
  | .parsed doc =>
    match responsesInTest doc with
    | some true => doc
    | some false => freshRecord now
    | none => freshRecord now

/-- The result shape the claim promises: a dict with a `"responses"` key. -/
def isDictWithResponses : JsonVal → Bool
  | .obj fields => fields.any (fun p => p.1 = "responses")
  | _ => false

/-- The stored document is a JSON object (a Python dict after decoding). -/
def isObjDoc : JsonVal → Bool
  | .obj _ => true
  | _ => false

/-! ### Helper lemmas -/

@[simp] theorem update_streak_user_id (s : AppState) (t : Nat) :
    (update_streak s t).user_id = s.user_id := by
  unfold update_streak; split <;> rfl

@[simp] theorem update_streak_user_account (s : AppState) (t : Nat) :
    (update_streak s t).user_account = s.user_account := by
  unfold update_streak; split <;> rfl

@[simp] theorem update_streak_responses (s : AppState) (t : Nat) :
    (update_streak s t).responses = s.responses := by
  unfold update_streak; split <;> rfl

@[simp] theorem update_streak_session_conversations (s : AppState) (t : Nat) :
    (update_streak s t).session_conversations = s.session_conversations := by
  unfold update_streak; split <;> rfl

@[simp] theorem storeConversation_user_id (s : AppState) (sid : Nat) (q : String) (c : List Message) :
    (storeConversation s sid q c).user_id = s.user_id := rfl

@[simp] theorem storeConversation_user_account (s : AppState) (sid : Nat) (q : String) (c : List Message) :
    (storeConversation s sid q c).user_account = s.user_account := rfl

@[simp] theorem storeConversation_responses (s : AppState) (sid : Nat) (q : String) (c : List Message) :
    (storeConversation s sid q c).responses = s.responses := rfl

@[simp] theorem conversationAt_storeConversation (s : AppState) (sid : Nat) (q : String) (c : List Message) :
    conversationAt (storeConversation s sid q c) sid q = c := by
  unfold conversationAt storeConversation
  simp [lookupA_upsertA_self]

/-- The account record after the stats update of lines 1513-1521, for a
session whose progress record is `sp`. -/
def statsUpdatedAccount (acc : Account) (sp : SessionProgress) (answer now : String) : Account :=
  let st1 : StatsRec :=
    { total_words := some ((acc.stats.getD emptyStats).total_words.getD 0 + wordCount answer),
      total_sessions := some sp.questions.length,
      last_active := some now }
  { acc with stats := some st1 }

/-- The responses map after upserting the answer (lines 1532-1535). -/
def responsesAfterSave (resps : List (Nat × SessionProgress)) (sid : Nat)
    (sp : SessionProgress) (q answer now : String) : List (Nat × SessionProgress) :=
  upsertA resps sid { sp with questions := upsertA sp.questions q ⟨answer, now⟩ }

/-- Evaluation of `save_response` on the no-account path when the session
entry exists. -/
theorem save_response_eq_no_account (s : AppState) (sid : Nat) (q a : String)
    (today : Nat) (now : String) (ok : Bool) (sp : SessionProgress)
    (hu : s.user_id ≠ "") (hacc : s.user_account = none)
    (hsp : lookupA s.responses sid = some sp) :
    save_response s sid q a today now ok =
      some (ok,
        { (update_streak s today) with responses := responsesAfterSave s.responses sid sp q a now },
        { accountSaved := none,
          userDataSaved := some (s.user_id, responsesAfterSave s.responses sid sp q a now) }) := by
  unfold save_response
  rw [if_neg hu]
  simp only [update_streak_user_account, update_streak_responses, hacc, hsp,
    update_streak_user_id]
  simp only [statsUpdatedAccount, responsesAfterSave]
  rfl

/-- Evaluation of `save_response` on the account path when the session entry
exists. -/
theorem save_response_eq_account (s : AppState) (sid : Nat) (q a : String)
    (today : Nat) (now : String) (ok : Bool) (acc : Account) (sp : SessionProgress)
    (hu : s.user_id ≠ "") (hacc : s.user_account = some acc)
    (hsp : lookupA s.responses sid = some sp) :
    save_response s sid q a today now ok =
      some (ok,
        { (update_streak s today) with
            user_account := some (statsUpdatedAccount acc sp a now),
            responses := responsesAfterSave s.responses sid sp q a now },
        { accountSaved := some (statsUpdatedAccount acc sp a now),
          userDataSaved := some (s.user_id, responsesAfterSave s.responses sid sp q a now) }) := by
  unfold save_response
  rw [if_neg hu]
  simp only [update_streak_user_account, update_streak_responses, hacc, hsp,
    update_streak_user_id]
  simp only [statsUpdatedAccount, responsesAfterSave]

/-- A baseline application state (the bootstrap state of lines 1393-1477
with a logged-in user and the Childhood session entry), specialised further
by the concrete witnesses below. -/
def baseState : AppState :=
  { user_id := "u1", logged_in := true, user_account := none,
    current_session := 0, current_question := 0, current_question_override := none,
    image_prompt_mode := false, selected_images_for_prompt := [],
    ghostwriter_mode := true, spellcheck_enabled := false, editing := none, edit_text := "",
    responses := [(1, { title := "Childhood", questions := [], summary := "",
                        completed := false, word_target := 800 })],
    session_conversations := [], streak_days := 1, last_active := 0,
    total_writing_days := 1, prompt_index := 0 }

/-- `save_response` with a present session entry always succeeds and returns
the write outcome, preserving the conversation store. -/
theorem save_response_succeeds (s : AppState) (sid : Nat) (q a : String)
    (today : Nat) (now : String) (ok : Bool) (sp : SessionProgress)
    (hu : s.user_id ≠ "") (hsp : lookupA s.responses sid = some sp) :
    ∃ st' eff, save_response s sid q a today now ok = some (ok, st', eff)
      ∧ st'.session_conversations = s.session_conversations
      ∧ st'.responses = responsesAfterSave s.responses sid sp q a now
      ∧ eff.userDataSaved = some (s.user_id, responsesAfterSave s.responses sid sp q a now) := by
  cases hacc : s.user_account with
  | none =>
    refine ⟨_, _, save_response_eq_no_account s sid q a today now ok sp hu hacc hsp, ?_, rfl, rfl⟩
    simp
  | some acc =>
    refine ⟨_, _, save_response_eq_account s sid q a today now ok acc sp hu hacc hsp, ?_, rfl, rfl⟩
    simp

/-! ### Claim theorems -/

/-- C1: the system-prompt builder is deterministic: for every fixed
navigation state, session, topic text, user account, stored images, mode
flags, and pre-sampled photo-question subset (the `random.sample` outcome,
which enters the embedding as the `sampled` oracle of `PromptDeps`), two
calls of `get_system_prompt` on states agreeing on every input it reads
produce byte-identical output strings: the builder introduces no further
randomness of its own. -/
theorem c1_get_system_prompt_deterministic (s1 s2 : AppState) (d : PromptDeps)
    (h1 : s1.current_session = s2.current_session)
    (h2 : s1.current_question = s2.current_question)
    (h3 : s1.current_question_override = s2.current_question_override)
    (h4 : s1.user_account = s2.user_account)
    (h5 : s1.logged_in = s2.logged_in)
    (h6 : s1.user_id = s2.user_id)
    (h7 : s1.image_prompt_mode = s2.image_prompt_mode)
    (h8 : s1.selected_images_for_prompt = s2.selected_images_for_prompt)
    (h9 : s1.ghostwriter_mode = s2.ghostwriter_mode) :
    get_system_prompt s1 d = get_system_prompt s2 d := by
  unfold get_system_prompt
  rw [h1, h2, h3, h4, h5, h6, h7, h8, h9]

/-- Deps used by the C1 witness. -/
def c1deps : PromptDeps :=
  { events_by_decade := [], current_year := 2026,
    session_images := fun _ _ => [], sampled := fun _ => [] }

/-- Witness for C1: two concrete states differing only in a field the
builder never reads (the streak counter) yield the same prompt. -/
theorem c1_witness :
    get_system_prompt baseState c1deps =
      get_system_prompt { baseState with streak_days := 42 } c1deps :=
  c1_get_system_prompt_deterministic baseState { baseState with streak_days := 42 } c1deps
    rfl rfl rfl rfl rfl rfl rfl rfl rfl

/-- C3: `save_response` with an empty/absent user id returns failure (False)
without mutating any state (responses, streak counters, account stats) and
without attempting any persistence (no file write recorded). -/
theorem c3_save_response_no_user (s : AppState) (session_id : Nat)
    (question answer : String) (today : Nat) (now : String) (ioOk : Bool)
    (h : s.user_id = "") :
    save_response s session_id question answer today now ioOk = some (false, s, noEffects) := by
  simp [save_response, h]

/-- Witness for C3 at a concrete state with an empty user id. -/
theorem c3_witness :
    save_response { baseState with user_id := "" } 1 "What is your earliest memory?"
      "I remember the garden." 3 "2026-10-12" true =
      some (false, { baseState with user_id := "" }, noEffects) :=
  c3_save_response_no_user { baseState with user_id := "" } 1
    "What is your earliest memory?" "I remember the garden." 3 "2026-10-12" true rfl

/-- C10 counterexample: a stored file holding the JSON string
"my responses" parses, passes the line-1069 `in` test by substring
containment, and is returned verbatim — a bare string, not a dict with a
`"responses"` mapping as the claim asserts for every input. -/
theorem c10_counterexample :
    load_user_data (fun u => u) (fun _ => FileState.parsed (JsonVal.str "my responses")) "u" "T"
      = JsonVal.str "my responses"
    ∧ isDictWithResponses (JsonVal.str "my responses") = false := by
  exact ⟨rfl, rfl⟩

/-- C10 (amended): `load_user_data` is total — every raised exception,
including the `TypeError` the line-1069 containment test throws on a
non-container document, is caught and yields the fresh record, as do a
missing, unreadable or malformed file and any document failing the test (in
particular a JSON object without a `"responses"` key).  A document passing
the test is returned verbatim, so the result is guaranteed to be a dict
containing a `"responses"` mapping only when the stored document is a JSON
object; a non-object document containing "responses" (as substring or list
element) is returned as-is without any responses mapping. -/
theorem c10_load_user_data_amended (md5hex : String → String) (fs : String → FileState)
    (user_id now : String) :
    ((fs (get_user_filename md5hex user_id) = FileState.missing
        ∨ fs (get_user_filename md5hex user_id) = FileState.unreadable) →
      load_user_data md5hex fs user_id now = freshRecord now)
    ∧ (∀ doc, fs (get_user_filename md5hex user_id) = FileState.parsed doc →
        (responsesInTest doc = some true → load_user_data md5hex fs user_id now = doc)
        ∧ (responsesInTest doc ≠ some true →
            load_user_data md5hex fs user_id now = freshRecord now))
    ∧ ((∀ doc, fs (get_user_filename md5hex user_id) = FileState.parsed doc →
          isObjDoc doc = true) →
        isDictWithResponses (load_user_data md5hex fs user_id now) = true) := by
  refine ⟨?_, ?_, ?_⟩
  · intro h
    cases h with
    | inl h => rw [load_user_data, h]
    | inr h => rw [load_user_data, h]
  · intro doc hdoc
    have hred : load_user_data md5hex fs user_id now =
        (match responsesInTest doc with
         | some true => doc
         | some false => freshRecord now
         | none => freshRecord now) := by
      rw [load_user_data, hdoc]
    constructor
    · intro ht
      rw [hred, ht]
    · intro ht
      rw [hred]
      cases hr : responsesInTest doc with
      | none => rfl
      | some b =>
        cases b with
        | false => rfl
        | true => exact absurd hr ht
  · intro hobj
    cases hfs : fs (get_user_filename md5hex user_id) with
    | missing =>
      rw [load_user_data, hfs]
      rfl
    | unreadable =>
      rw [load_user_data, hfs]
      rfl
    | parsed doc =>
      have hred : load_user_data md5hex fs user_id now =
          (match responsesInTest doc with
           | some true => doc
           | some false => freshRecord now
           | none => freshRecord now) := by
        rw [load_user_data, hfs]
      rw [hred]
      cases doc with
      | obj fields =>
        cases hr : responsesInTest (JsonVal.obj fields) with
        | none => simp [responsesInTest] at hr
        | some b =>
          cases b with
          | false => rfl
          | true =>
            simp only [responsesInTest, Option.some.injEq] at hr
            simpa [isDictWithResponses] using hr
      | str s => exact absurd (hobj _ hfs) (by simp [isObjDoc])
      | arr elems => exact absurd (hobj _ hfs) (by simp [isObjDoc])
      | num n => exact absurd (hobj _ hfs) (by simp [isObjDoc])
      | bool b => exact absurd (hobj _ hfs) (by simp [isObjDoc])
      | null => exact absurd (hobj _ hfs) (by simp [isObjDoc])

/-- A well-formed stored user document for the C10 witness. -/
def c10doc : JsonVal :=
  .obj [("user_id", .str "u1"), ("responses", .obj []), ("last_saved", .str "t")]

/-- Witness for C10 (amended) at concrete inputs: a stored object document
passing the test is returned verbatim, and the object-only guarantee gives a
dict with a `"responses"` mapping. -/
theorem c10_witness :
    load_user_data (fun u => u) (fun _ => FileState.parsed c10doc) "u" "T" = c10doc
    ∧ isDictWithResponses
        (load_user_data (fun u => u) (fun _ => FileState.parsed c10doc) "u" "T") = true := by
  refine ⟨?_, ?_⟩
  · exact ((c10_load_user_data_amended (fun u => u) (fun _ => FileState.parsed c10doc)
      "u" "T").2.1 c10doc rfl).1 rfl
  · exact (c10_load_user_data_amended (fun u => u) (fun _ => FileState.parsed c10doc)
      "u" "T").2.2 (fun doc h => by cases h; rfl)

/-- State in which the only saved answer of Session 1 is the word-count
scenario text. -/
def c9state : AppState :=
  { baseState with responses :=
      [(1, { title := "Childhood",
             questions := [("What is your earliest memory?",
               { answer := "I remember the garden.", timestamp := "t0" })],
             summary := "", completed := false, word_target := 800 })] }

/-- C9: the single word-count rule (count of regex word tokens) gives 4 for
"I remember the garden.", the session word count reuses the same rule, and
the progress percent for word target 800 is (4/800)*100 = 0.5. -/
theorem c9_word_count_single_rule :
    wordCount "I remember the garden." = 4 ∧
    calculate_author_word_count c9state 1 = 4 ∧
    (get_progress_info c9state 1).map (fun p => p.progress_percent) =
      some ((4 : ℚ) / 800 * 100) ∧
    ((4 : ℚ) / 800 * 100) = 1 / 2 := by
  have hc : calculate_author_word_count c9state 1 = 4 := by decide
  have hl : lookupA c9state.responses 1 =
      some { title := "Childhood",
             questions := [("What is your earliest memory?",
               { answer := "I remember the garden.", timestamp := "t0" })],
             summary := "", completed := false, word_target := 800 } := by decide
  refine ⟨by decide, hc, ?_, by norm_num⟩
  unfold get_progress_info
  rw [hl]
  simp only [hc]
  norm_num

/-- C6: for every birth year and event store, `get_events_for_birth_year`
returns only events with `approx_age >= 0`, ordered ascending by the decade
string; and the historical-context renderer never renders a negative age: a
negative-age event line carries no `(Age ...)` suffix at all.  Hence an
event with negative `approx_age` (e.g. -3) never appears in the rendered
historical-context block of the system prompt, which is built from
`get_events_for_birth_year` output only. -/
theorem c6_no_negative_ages :
    (∀ (ebd : List (String × List RawEvent)) (b cy : Int) (e : AgedEvent),
        e ∈ get_events_for_birth_year ebd b cy → 0 ≤ e.approx_age)
    ∧ (∀ (ebd : List (String × List RawEvent)) (b cy : Int),
        List.Pairwise (fun a b2 : AgedEvent => a.year_range ≤ b2.year_range)
          (get_events_for_birth_year ebd b cy))
    ∧ (∀ e : AgedEvent, e.approx_age < 0 →
        renderEventLine e =
          (if e.region = "UK"
           then "- " ++ e.event ++ " (" ++ e.year_range ++ ")" ++ " [UK]"
           else "- " ++ e.event ++ " (" ++ e.year_range ++ ")")) := by
  refine ⟨?_, ?_, ?_⟩
  · intro ebd b cy e he
    unfold get_events_for_birth_year at he
    have h1 := List.mem_of_mem_take he
    rw [List.mem_mergeSort] at h1
    rw [List.mem_flatMap] at h1
    obtain ⟨dy, _, hmem⟩ := h1
    cases hl : lookupA ebd (toString dy ++ "s") with
    | none => rw [hl] at hmem; simp at hmem
    | some evs =>
      rw [hl] at hmem
      rw [List.mem_filterMap] at hmem
      obtain ⟨e0, _, heq⟩ := hmem
      by_cases hage : (0 : Int) ≤ dy + 5 - b
      · rw [if_pos hage] at heq
        cases heq
        exact hage
      · rw [if_neg hage] at heq
        exact absurd heq (by simp)
  · intro ebd b cy
    unfold get_events_for_birth_year
    refine List.Pairwise.sublist (List.take_sublist _ _) ?_
    refine List.Pairwise.imp (fun h => of_decide_eq_true h) ?_
    refine List.sorted_mergeSort ?_ ?_ _
    · intro a b2 c hab hbc
      simp at *
      exact le_trans hab hbc
    · intro a b2
      simp [le_total]
  · intro e h
    have hn : ¬ (0 ≤ e.approx_age) := not_le.mpr h
    simp only [renderEventLine, if_neg hn]

/-- Concrete event store for the C6 witness. -/
def c6ebd : List (String × List RawEvent) :=
  [("1950s", [{ event := "Coronation of Elizabeth II", category := "Royal",
                region := "UK", description := "", year_range := "1950s" }])]

/-- Concrete filtered event for the C6 witness (age 7 for birth year 1948). -/
def c6event : AgedEvent :=
  { event := "Coronation of Elizabeth II", category := "Royal", region := "UK",
    description := "", year_range := "1950s", approx_age := 7 }

/-- Concrete negative-age event for the C6 witness. -/
def c6negEvent : AgedEvent :=
  { event := "X", category := "General", region := "Global",
    description := "", year_range := "1950s", approx_age := -3 }

/-- Witness for C6: the concrete event is in the filtered output with a
non-negative age, and a negative-age event renders without an age suffix. -/
theorem c6_witness :
    c6event ∈ get_events_for_birth_year c6ebd 1948 1960 ∧
    0 ≤ c6event.approx_age ∧
    c6negEvent.approx_age < 0 ∧
    renderEventLine c6negEvent = "- X (1950s)" := by
  have hflat : (range10 ((Int.fdiv 1948 10) * 10) ((1960 : Int) + 10)).flatMap
        (fun decade_year =>
          match lookupA c6ebd (toString decade_year ++ "s") with
          | none => []
          | some evs => evs.filterMap (fun e =>
              let age_at_event := (decade_year + 5) - 1948
              if 0 ≤ age_at_event then some (withAge e age_at_event) else none)) =
        [c6event] := by decide
  have hev : get_events_for_birth_year c6ebd 1948 1960 = [c6event] := by
    unfold get_events_for_birth_year
    show List.take 20
        (((range10 ((Int.fdiv 1948 10) * 10) ((1960 : Int) + 10)).flatMap
          (fun decade_year =>
            match lookupA c6ebd (toString decade_year ++ "s") with
            | none => []
            | some evs => evs.filterMap (fun e =>
                let age_at_event := (decade_year + 5) - 1948
                if 0 ≤ age_at_event then some (withAge e age_at_event) else none))).mergeSort
          (fun a b => decide (a.year_range ≤ b.year_range))) = [c6event]
    rw [hflat, List.mergeSort_singleton]
    rfl
  have hmem : c6event ∈ get_events_for_birth_year c6ebd 1948 1960 := by
    rw [hev]; exact List.mem_singleton.mpr rfl
  refine ⟨hmem, c6_no_negative_ages.1 c6ebd 1948 1960 c6event hmem, by decide, ?_⟩
  rw [c6_no_negative_ages.2.2 c6negEvent (by decide)]
  decide


/-- The 2-message transcript synthesized from a saved answer
(lines 2588-2591). -/
def synth2 (question answerText : String) : List Message :=
  [{ role := "assistant", content := "Let\x27s explore this topic in detail: " ++ question },
   { role := "user", content := answerText }]

/-- A non-empty stored transcript is returned as-is (lines 2580-2582): the
lookup-or-create step is idempotent once a transcript exists. -/
theorem getOrCreateConversation_of_nonempty (s : AppState) (sid : Nat) (k : String)
    (h : conversationAt s sid k ≠ []) :
    getOrCreateConversation s sid k = some (conversationAt s sid k, s) := by
  unfold getOrCreateConversation
  cases hl : lookupA s.session_conversations sid with
  | none =>
    exact absurd (by simp [conversationAt, hl, lookupA]) h
  | some inner =>
    have hc : conversationAt s sid k =
        (lookupA ((lookupA s.session_conversations sid).getD []) k).getD [] := rfl
    rw [hl] at hc
    simp only [hl, Option.isSome_some, if_true]
    rw [if_pos (by rw [← hc]; exact h)]
    rw [← hc]

/-- Empty transcript and a saved answer: the 2-message transcript is
synthesized and stored (lines 2586-2592). -/
theorem getOrCreateConversation_empty_saved (s : AppState) (sid : Nat) (k : String)
    (sp : SessionProgress) (ans : Answer)
    (hsp : lookupA s.responses sid = some sp)
    (hans : lookupA sp.questions k = some ans)
    (hconv : conversationAt s sid k = []) :
    ∃ s2, getOrCreateConversation s sid k = some (synth2 k ans.answer, s2)
      ∧ conversationAt s2 sid k = synth2 k ans.answer := by
  unfold getOrCreateConversation
  cases hl : lookupA s.session_conversations sid with
  | none =>
    simp only [hl, Option.isSome_none, Bool.false_eq_true, if_false]
    rw [if_neg (by simp [lookupA_upsertA_self, lookupA])]
    simp only [hsp, hans]
    exact ⟨_, rfl, conversationAt_storeConversation _ _ _ _⟩
  | some inner =>
    have hc : conversationAt s sid k =
        (lookupA ((lookupA s.session_conversations sid).getD []) k).getD [] := rfl
    rw [hl] at hc
    simp only [hl, Option.isSome_some, if_true]
    rw [if_neg (by rw [← hc, hconv]; simp)]
    simp only [hsp, hans]
    exact ⟨_, rfl, conversationAt_storeConversation _ _ _ _⟩

/-- Empty transcript and no saved answer: a 1-message opened transcript is
synthesized and stored (lines 2594-2623). -/
theorem getOrCreateConversation_empty_unsaved (s : AppState) (sid : Nat) (k : String)
    (sp : SessionProgress)
    (hsp : lookupA s.responses sid = some sp)
    (hans : lookupA sp.questions k = none)
    (hconv : conversationAt s sid k = []) :
    ∃ s2 m, getOrCreateConversation s sid k = some ([m], s2) ∧ m.role = "assistant" := by
  unfold getOrCreateConversation
  cases hl : lookupA s.session_conversations sid with
  | none =>
    simp only [hl, Option.isSome_none, Bool.false_eq_true, if_false]
    rw [if_neg (by simp [lookupA_upsertA_self, lookupA])]
    simp only [hsp, hans]
    exact ⟨_, _, rfl, rfl⟩
  | some inner =>
    have hc : conversationAt s sid k =
        (lookupA ((lookupA s.session_conversations sid).getD []) k).getD [] := rfl
    rw [hl] at hc
    simp only [hl, Option.isSome_some, if_true]
    rw [if_neg (by rw [← hc, hconv]; simp)]
    simp only [hsp, hans]
    exact ⟨_, _, rfl, rfl⟩

/-- Concrete state for the C4 counterexample: session 1 has a saved answer
"X" under topic key "Q" and no transcript yet. -/
def c4state : AppState :=
  { baseState with responses :=
      [(1, { title := "Childhood", questions := [("Q", { answer := "X", timestamp := "t" })],
             summary := "", completed := false, word_target := 800 })] }

/-- C4 counterexample: with a saved answer and no transcript, the
synthesized opening assistant message is "Let\x27s explore this topic in
detail: <topicKey>", not the "Let\x27s explore: <topicKey>" the claim
asserts. -/
theorem c4_counterexample :
    ((getOrCreateConversation c4state 1 "Q").map (fun r => r.1.head?.map (fun m => m.content)))
      = some (some "Let\x27s explore this topic in detail: Q")
    ∧ (some (some "Let\x27s explore this topic in detail: Q") : Option (Option String))
      ≠ some (some "Let\x27s explore: Q") := by
  exact ⟨by decide, by decide⟩

/-- C4 (amended): with a saved Answer of text X and no existing transcript,
the lookup-or-create step synthesizes the 2-message transcript
`[assistant "Let\x27s explore this topic in detail: <topicKey>", user X]`;
calling it twice in a row returns a transcript whose final user message
content is X both times with no message duplicated (length stays 2); with no
saved Answer it creates a single-message opened transcript. -/
theorem c4_get_or_create_round_trip (s : AppState) (sid : Nat) (k : String)
    (sp : SessionProgress)
    (hsp : lookupA s.responses sid = some sp)
    (hconv : conversationAt s sid k = []) :
    (∀ ans : Answer, lookupA sp.questions k = some ans →
      ∃ s2, getOrCreateConversation s sid k = some (synth2 k ans.answer, s2)
        ∧ getOrCreateConversation s2 sid k = some (synth2 k ans.answer, s2)
        ∧ (synth2 k ans.answer).length = 2
        ∧ (synth2 k ans.answer).getLast?.map (fun m => (m.role, m.content))
            = some ("user", ans.answer))
    ∧ (lookupA sp.questions k = none →
      ∃ s2 m, getOrCreateConversation s sid k = some ([m], s2) ∧ m.role = "assistant") := by
  constructor
  · intro ans hans
    obtain ⟨s2, h1, h2⟩ := getOrCreateConversation_empty_saved s sid k sp ans hsp hans hconv
    refine ⟨s2, h1, ?_, rfl, rfl⟩
    have h3 := getOrCreateConversation_of_nonempty s2 sid k (by rw [h2]; simp [synth2])
    rw [h2] at h3
    exact h3
  · intro hans
    exact getOrCreateConversation_empty_unsaved s sid k sp hsp hans hconv

/-- Witness for C4 (amended) at the concrete counterexample state. -/
theorem c4_witness :
    ∃ s2, getOrCreateConversation c4state 1 "Q" = some (synth2 "Q" "X", s2)
      ∧ getOrCreateConversation s2 1 "Q" = some (synth2 "Q" "X", s2) := by
  obtain ⟨s2, h1, h2, _, _⟩ :=
    (c4_get_or_create_round_trip c4state 1 "Q"
      { title := "Childhood", questions := [("Q", { answer := "X", timestamp := "t" })],
        summary := "", completed := false, word_target := 800 }
      (by decide) (by decide)).1
      { answer := "X", timestamp := "t" } (by decide)
  exact ⟨s2, h1, h2⟩


theorem length_upsertA_of_not_mem {κ α : Type} [DecidableEq κ]
    (m : List (κ × α)) (k : κ) (v : α) (h : lookupA m k = none) :
    (upsertA m k v).length = m.length + 1 := by
  induction m with
  | nil => simp [upsertA]
  | cons p rest ih =>
    by_cases hp : p.1 = k
    · simp [lookupA, hp] at h
    · simp [lookupA, hp] at h
      simp [upsertA, hp, ih h]

/-- Concrete state for the C2 counterexample: an account is attached and
session 1 has no answered topics yet. -/
def c2state : AppState :=
  { baseState with
      user_account := some { email := "e", profile_birthdate := none, stats := none } }

/-- C2 counterexample: saving the first answer of a session stores
`total_sessions = 0` (the count of answered topics before the insert), while
the number of answered topics counting the just-saved answer is 1. -/
theorem c2_counterexample :
    (save_response c2state 1 "What is your earliest memory?" "hello there" 3 "T" true).map
      (fun r => ((r.2.1.user_account.bind (fun a2 => a2.stats)).bind (fun st => st.total_sessions),
                 (lookupA r.2.1.responses 1).map (fun sp => sp.questions.length)))
      = some (some 0, some 1)
    ∧ (some 0 : Option Nat) ≠ some 1 := by
  exact ⟨by decide, by decide⟩

/-- C2 (amended): after every successful `save_response` by a user with an
attached account, the persisted stat `total_sessions` equals the number of
answered topics in that session immediately BEFORE the just-saved answer is
inserted (the stats update at lines 1513-1521 runs before the insert at
line 1532): it counts the new answer only when it overwrote an existing
topic key. -/
theorem c2_total_sessions_pre_insert (s : AppState) (sid : Nat) (q a : String)
    (today : Nat) (now : String) (acc : Account) (sp : SessionProgress)
    (hu : s.user_id ≠ "") (hacc : s.user_account = some acc)
    (hsp : lookupA s.responses sid = some sp) :
    ∃ st2 eff, save_response s sid q a today now true = some (true, st2, eff)
      ∧ eff.accountSaved = st2.user_account
      ∧ (st2.user_account.bind (fun a2 => a2.stats)).bind (fun r => r.total_sessions)
          = some sp.questions.length
      ∧ (lookupA st2.responses sid).map (fun sp2 => sp2.questions.length)
          = some (if (lookupA sp.questions q).isSome then sp.questions.length
                  else sp.questions.length + 1) := by
  refine ⟨_, _, save_response_eq_account s sid q a today now true acc sp hu hacc hsp,
    rfl, ?_, ?_⟩
  · simp [statsUpdatedAccount]
  · simp only [responsesAfterSave, lookupA_upsertA_self, Option.map_some]
    by_cases hq : (lookupA sp.questions q).isSome
    · simp [hq, length_upsertA_of_mem _ _ _ hq]
    · rw [if_neg hq]
      simp [length_upsertA_of_not_mem _ _ _ (Option.not_isSome_iff_eq_none.mp hq)]

/-- Witness for C2 (amended): at the concrete counterexample state the
persisted `total_sessions` is 0 (the pre-insert count). -/
theorem c2_witness :
    ∃ st2 eff, save_response c2state 1 "What is your earliest memory?" "hello there" 3 "T" true
        = some (true, st2, eff)
      ∧ (st2.user_account.bind (fun a2 => a2.stats)).bind (fun r => r.total_sessions)
          = some 0 := by
  obtain ⟨st2, eff, h1, _, h3, _⟩ :=
    c2_total_sessions_pre_insert c2state 1 "What is your earliest memory?" "hello there" 3 "T"
      { email := "e", profile_birthdate := none, stats := none }
      { title := "Childhood", questions := [], summary := "", completed := false,
        word_target := 800 }
      (by decide) rfl (by decide)
  exact ⟨st2, eff, h1, by simpa using h3⟩


/-- `conversationAt` only reads the conversation store. -/
theorem conversationAt_congr (s1 s2 : AppState) (sid : Nat) (q : String)
    (h : s1.session_conversations = s2.session_conversations) :
    conversationAt s1 sid q = conversationAt s2 sid q := by
  unfold conversationAt
  rw [h]

/-- C7: if the LLM completion call raises, the fixed fallback assistant
message is appended to the transcript and the user answer is still persisted
via `save_response`: the turn handler returns normally with the save outcome
(never a fatal error) and the file write is attempted. -/
theorem c7_llm_failure_persists (s : AppState) (sid : Nat) (q user_input : String)
    (today : Nat) (now : String) (sp : SessionProgress)
    (hu : s.user_id ≠ "") (hsp : lookupA s.responses sid = some sp) :
    ∃ st2 eff, chatTurn s sid q user_input (Except.error ()) today now true
        = some (true, st2, eff)
      ∧ conversationAt st2 sid q = conversationAt s sid q ++
          [{ role := "user", content := user_input },
           { role := "assistant", content := llmFallbackMessage }]
      ∧ (lookupA st2.responses sid).map (fun sp2 => lookupA sp2.questions q)
          = some (some { answer := user_input, timestamp := now })
      ∧ eff.userDataSaved.isSome := by
  unfold chatTurn
  obtain ⟨st2, eff, heq, hsc, hresp, heff⟩ :=
    save_response_succeeds
      (storeConversation s sid q ((conversationAt s sid q ++ [{ role := "user", content := user_input }])
        ++ [{ role := "assistant", content := llmFallbackMessage }]))
      sid q user_input today now true sp
      (by simpa using hu) (by simpa using hsp)
  refine ⟨st2, eff, heq, ?_, ?_, by rw [heff]; rfl⟩
  · rw [conversationAt_congr st2 _ sid q hsc, conversationAt_storeConversation]
    simp
  · rw [hresp]
    simp [responsesAfterSave, lookupA_upsertA_self]

/-- Witness state for C7: session 1 already has an opened transcript for the
earliest-memory topic. -/
def c7state : AppState :=
  { baseState with session_conversations :=
      [(1, [("What is your earliest memory?",
        [{ role := "assistant", content := "opening" }])])] }

/-- Witness for C7 at a concrete state: the LLM raises, yet the answer is
persisted and the fallback message ends the transcript. -/
theorem c7_witness :
    ∃ st2 eff, chatTurn c7state 1 "What is your earliest memory?" "I remember the garden."
        (Except.error ()) 3 "T" true = some (true, st2, eff)
      ∧ conversationAt st2 1 "What is your earliest memory?" =
          [{ role := "assistant", content := "opening" },
           { role := "user", content := "I remember the garden." },
           { role := "assistant", content := llmFallbackMessage }]
      ∧ (lookupA st2.responses 1).map (fun sp2 => lookupA sp2.questions "What is your earliest memory?")
          = some (some { answer := "I remember the garden.", timestamp := "T" }) := by
  obtain ⟨st2, eff, h1, h2, h3, _⟩ :=
    c7_llm_failure_persists c7state 1 "What is your earliest memory?" "I remember the garden."
      3 "T"
      { title := "Childhood", questions := [], summary := "", completed := false,
        word_target := 800 }
      (by decide) (by decide)
  refine ⟨st2, eff, h1, ?_, h3⟩
  rw [h2]
  decide


/-- C8: saving an edit of an existing user turn replaces only the content of
the targeted message (same role, same transcript length, all other messages
unchanged), and the subsequent `save_response` with the edited text
overwrites the single Answer stored under that (session, topic-key): the
questions map keeps its size and still holds exactly one entry for the key,
now carrying the edited text. -/
theorem c8_edit_in_place (s : AppState) (sid : Nat) (q : String) (i : Nat)
    (new_text : String) (today : Nat) (now : String) (sp : SessionProgress)
    (hu : s.user_id ≠ "") (hsp : lookupA s.responses sid = some sp)
    (hq : (lookupA sp.questions q).isSome)
    (hone : countKeyA sp.questions q = 1)
    (hi : i < (conversationAt s sid q).length) :
    ∃ st2 eff, editSaveTurn s sid q i new_text today now true = some (true, st2, eff)
      ∧ (conversationAt st2 sid q).length = (conversationAt s sid q).length
      ∧ (conversationAt st2 sid q)[i]? =
          some { (conversationAt s sid q).getD i { role := "", content := "" } with
                   content := new_text }
      ∧ (∀ j, j ≠ i → (conversationAt st2 sid q)[j]? = (conversationAt s sid q)[j]?)
      ∧ (lookupA st2.responses sid).map (fun sp2 => sp2.questions.length)
          = some sp.questions.length
      ∧ (lookupA st2.responses sid).map (fun sp2 => lookupA sp2.questions q)
          = some (some { answer := new_text, timestamp := now })
      ∧ (lookupA st2.responses sid).map (fun sp2 => countKeyA sp2.questions q) = some 1 := by
  unfold editSaveTurn
  rw [if_pos hi]
  obtain ⟨st', eff, heq, hsc, hresp, heff⟩ :=
    save_response_succeeds
      (storeConversation s sid q ((conversationAt s sid q).set i
        { (conversationAt s sid q).getD i { role := "", content := "" } with
            content := new_text }))
      sid q new_text today now true sp
      (by simpa using hu) (by simpa using hsp)
  refine ⟨{ st' with editing := none }, eff, ?_, ?_, ?_, ?_, ?_, ?_, ?_⟩
  · simp only [heq]
    rfl
  · rw [conversationAt_congr { st' with editing := none } st' sid q rfl,
      conversationAt_congr st' _ sid q hsc, conversationAt_storeConversation]
    simp
  · rw [conversationAt_congr { st' with editing := none } st' sid q rfl,
      conversationAt_congr st' _ sid q hsc, conversationAt_storeConversation]
    exact List.getElem?_set_self hi
  · intro j hj
    rw [conversationAt_congr { st' with editing := none } st' sid q rfl,
      conversationAt_congr st' _ sid q hsc, conversationAt_storeConversation]
    exact List.getElem?_set_ne (fun h => hj h.symm)
  · show (lookupA st'.responses sid).map (fun sp2 => sp2.questions.length)
        = some sp.questions.length
    rw [hresp]
    simp [responsesAfterSave, lookupA_upsertA_self, length_upsertA_of_mem _ _ _ hq]
  · show (lookupA st'.responses sid).map (fun sp2 => lookupA sp2.questions q)
        = some (some { answer := new_text, timestamp := now })
    rw [hresp]
    simp [responsesAfterSave, lookupA_upsertA_self]
  · show (lookupA st'.responses sid).map (fun sp2 => countKeyA sp2.questions q) = some 1
    rw [hresp]
    simp [responsesAfterSave, lookupA_upsertA_self,
      countKeyA_upsertA_of_mem _ _ _ hq, hone]

/-- Witness state for C8: a 2-message transcript and a saved answer "old"
under the earliest-memory topic. -/
def c8state : AppState :=
  { baseState with
      responses :=
        [(1, { title := "Childhood",
               questions := [("What is your earliest memory?",
                 { answer := "old", timestamp := "t0" })],
               summary := "", completed := false, word_target := 800 })],
      session_conversations :=
        [(1, [("What is your earliest memory?",
          [{ role := "assistant", content := "opening" },
           { role := "user", content := "old" }])])] }

/-- Witness for C8 at a concrete state: editing the user turn at index 1
keeps the transcript length at 2 and overwrites the single stored Answer. -/
theorem c8_witness :
    ∃ st2 eff, editSaveTurn c8state 1 "What is your earliest memory?" 1 "new" 3 "T" true
        = some (true, st2, eff)
      ∧ (conversationAt st2 1 "What is your earliest memory?").length = 2
      ∧ (lookupA st2.responses 1).map (fun sp2 => countKeyA sp2.questions "What is your earliest memory?")
          = some 1 := by
  obtain ⟨st2, eff, h1, h2, _, _, _, _, h7⟩ :=
    c8_edit_in_place c8state 1 "What is your earliest memory?" 1 "new" 3 "T"
      { title := "Childhood",
        questions := [("What is your earliest memory?", { answer := "old", timestamp := "t0" })],
        summary := "", completed := false, word_target := 800 }
      (by decide) (by decide) (by decide) (by decide) (by decide)
  exact ⟨st2, eff, h1, by rw [h2]; decide, h7⟩


/-- Every catalog session has at least one question. -/
theorem sessions_questions_pos :
    ∀ i, i < SESSIONS.length →
      0 < ((SESSIONS.get? i).map (·.questions.length)).getD 0 := by
  decide

/-- Concrete state for the C5 counterexample: last topic of Session 1 with a
custom override prompt set. -/
def c5state : AppState :=
  { baseState with
      current_question := 6,
      current_question_override :=
        some "Describe a smell or sound that brings back a strong memory." }

/-- C5 counterexample: at the last topic the `Next Topic` button is disabled,
so the operation is the identity and does NOT clear `topicOverride`, contrary
to the claim that every navigation operation clears it. -/
theorem c5_counterexample :
    NavInv c5state
    ∧ (nextTopicClick c5state).map (fun s2 => s2.current_question_override)
        = some (some "Describe a smell or sound that brings back a strong memory.")
    ∧ (some (some "Describe a smell or sound that brings back a strong memory.")
        : Option (Option String)) ≠ some none := by
  exact ⟨by decide, by decide, by decide⟩

/-- `numTopics` through a known catalog lookup. -/
theorem numTopics_eq_of_get (s : AppState) (sess : Session)
    (h : SESSIONS.get? s.current_session = some sess) :
    numTopics s = sess.questions.length := by
  rw [numTopics, h]
  rfl

/-- C5 (amended): every navigation operation (select session, next/previous
topic, next/previous session, jump-to-session) preserves the invariant
`0 <= currentSessionIndex < |Sessions|` and
`0 <= currentTopicIndex < |questions of current session|`; every operation
that actually moves (its button is enabled / the jump target differs from
the current session) clears `topicOverride`; at the last (resp. first) topic
the next-topic (resp. previous-topic) button is disabled, so the operation
is the identity — idempotent, never out of bounds, but leaving
`topicOverride` unchanged rather than clearing it. -/
theorem c5_navigation_invariant (s : AppState) (hinv : NavInv s) :
    (∀ i, i < SESSIONS.length →
      NavInv (selectSessionClick s i)
        ∧ (selectSessionClick s i).current_question_override = none)
    ∧ (∃ s2, nextTopicClick s = some s2 ∧ NavInv s2
        ∧ (numTopics s - 1 ≤ s.current_question → s2 = s ∧ nextTopicClick s2 = some s2)
        ∧ (s.current_question < numTopics s - 1 → s2.current_question_override = none))
    ∧ (∃ s2, prevTopicClick s = some s2 ∧ NavInv s2
        ∧ (s.current_question = 0 → s2 = s ∧ prevTopicClick s2 = some s2)
        ∧ (s.current_question ≠ 0 → s2.current_question_override = none))
    ∧ (∃ s2, nextSessionClick s = some s2 ∧ NavInv s2
        ∧ (SESSIONS.length - 1 ≤ s.current_session → s2 = s ∧ nextSessionClick s2 = some s2)
        ∧ (s.current_session < SESSIONS.length - 1 → s2.current_question_override = none))
    ∧ (∃ s2, prevSessionClick s = some s2 ∧ NavInv s2
        ∧ (s.current_session = 0 → s2 = s ∧ prevSessionClick s2 = some s2)
        ∧ (s.current_session ≠ 0 → s2.current_question_override = none))
    ∧ (∀ i, i < SESSIONS.length →
        NavInv (jumpToSession s i)
        ∧ (i ≠ s.current_session → (jumpToSession s i).current_question_override = none)) := by
  obtain ⟨hs, hq⟩ := hinv
  cases hget : SESSIONS.get? s.current_session with
  | none =>
    rw [numTopics, hget] at hq
    simp at hq
  | some sess =>
    rw [numTopics, hget] at hq
    simp at hq
    have hnum : numTopics s = sess.questions.length := numTopics_eq_of_get s sess hget
    have hcq : currentQuestions s = some sess.questions := by
      rw [currentQuestions, hget]; rfl
    refine ⟨?_, ?_, ?_, ?_, ?_, ?_⟩
    · intro i hi
      refine ⟨⟨hi, ?_⟩, rfl⟩
      have := sessions_questions_pos i hi
      simpa [numTopics, selectSessionClick] using this
    · unfold nextTopicClick
      simp only [hcq]
      by_cases hb : sess.questions.length - 1 ≤ s.current_question
      · rw [if_pos hb]
        refine ⟨s, rfl, ⟨hs, by rw [hnum]; exact hq⟩, ?_, ?_⟩
        · intro _
          refine ⟨rfl, ?_⟩
          simp only [hcq]
          rw [if_pos hb]
        · intro hlt
          rw [hnum] at hlt
          omega
      · rw [if_neg hb]
        refine ⟨_, rfl, ⟨hs, ?_⟩, ?_, fun _ => rfl⟩
        · show min (sess.questions.length - 1) (s.current_question + 1) < numTopics s
          rw [hnum]
          omega
        · intro hbb
          rw [hnum] at hbb
          exact absurd hbb hb
    · unfold prevTopicClick
      simp only [hcq]
      by_cases hb : s.current_question = 0
      · rw [if_pos hb]
        refine ⟨s, rfl, ⟨hs, by rw [hnum]; exact hq⟩, ?_, fun hne => absurd hb hne⟩
        intro _
        refine ⟨rfl, ?_⟩
        simp only [hcq]
        rw [if_pos hb]
      · rw [if_neg hb]
        refine ⟨_, rfl, ⟨hs, ?_⟩, fun h0 => absurd h0 hb, fun _ => rfl⟩
        show s.current_question - 1 < numTopics s
        rw [hnum]
        omega
    · unfold nextSessionClick
      simp only [hcq]
      by_cases hb : SESSIONS.length - 1 ≤ s.current_session
      · rw [if_pos hb]
        refine ⟨s, rfl, ⟨hs, by rw [hnum]; exact hq⟩, ?_, fun hlt => absurd hb (by omega)⟩
        intro _
        refine ⟨rfl, ?_⟩
        simp only [hcq]
        rw [if_pos hb]
      · rw [if_neg hb]
        have hi2 : min (SESSIONS.length - 1) (s.current_session + 1) < SESSIONS.length := by
          omega
        refine ⟨_, rfl, ⟨hi2, ?_⟩, fun h0 => absurd h0 hb, fun _ => rfl⟩
        have := sessions_questions_pos (min (SESSIONS.length - 1) (s.current_session + 1)) hi2
        simpa [numTopics] using this
    · unfold prevSessionClick
      simp only [hcq]
      by_cases hb : s.current_session = 0
      · rw [if_pos hb]
        refine ⟨s, rfl, ⟨hs, by rw [hnum]; exact hq⟩, ?_, fun hne => absurd hb hne⟩
        intro _
        refine ⟨rfl, ?_⟩
        simp only [hcq]
        rw [if_pos hb]
      · rw [if_neg hb]
        have hi2 : s.current_session - 1 < SESSIONS.length := by omega
        refine ⟨_, rfl, ⟨hi2, ?_⟩, fun h0 => absurd h0 hb, fun _ => rfl⟩
        have := sessions_questions_pos (s.current_session - 1) hi2
        simpa [numTopics] using this
    · intro i hi
      unfold jumpToSession
      by_cases hb : i = s.current_session
      · rw [if_pos hb]
        exact ⟨⟨hs, by rw [hnum]; exact hq⟩, fun hne => absurd hb hne⟩
      · rw [if_neg hb]
        refine ⟨⟨hi, ?_⟩, fun _ => rfl⟩
        have := sessions_questions_pos i hi
        simpa [numTopics] using this

/-- Witness for C5 (amended) at the bootstrap state (session 0, topic 0):
next-topic advances, preserves the invariant and clears the override. -/
theorem c5_witness :
    ∃ s2, nextTopicClick baseState = some s2 ∧ NavInv s2
      ∧ s2.current_question_override = none := by
  obtain ⟨_, ⟨s2, h1, h2, _, h4⟩, _, _, _, _⟩ :=
    c5_navigation_invariant baseState (by decide)
  exact ⟨s2, h1, h2, h4 (by decide)⟩

end Biographer
